import Mathlib

/-!
Verification development for the `claude_hook_master` repository.

The core under study is `src/hook_parser.py`: class `HookParser`, whose
method `parse` takes one raw JSON text and returns the parsed record
together with one human-readable description.  This file gives a shallow
embedding of that module:

* `JVal` models a Python value produced by `json.loads` (JSON integers
  stand in for JSON numbers; the claims only concern string fields).
* `jsonParse` models the standard library's `json.loads` (it is not code
  of the repository): a recursive-descent JSON reader returning
  `Except`, with duplicate object keys kept in order and `dictGet`
  returning the last binding, as a Python dict built by `json.loads`
  would.  Error messages are modelled abstractly — the code only ever
  embeds them after a fixed prefix, and no claim depends on their text.
* Each `_handle_*` method of `HookParser` becomes a Lean function of the
  same name (without the leading underscore).  Handlers return
  `Except String String`: a `.error` marks a place where the Python code
  would raise (e.g. calling `.get` on a non-dict, or `len` on a
  non-string), which `parse` catches in its `except Exception` arm.
* `describeData` embeds the dispatch logic of `HookParser.parse`
  (lines 25–42) on an already-parsed record, and `parseCore` the whole
  try/except structure.  The wall-clock timestamp prefix added by
  `_format_output` is modelled by `format_output` taking the timestamp
  as an argument; claims speak about the description body, i.e. the
  string before that prefix is attached.
-/

namespace HookMaster

/-- A Python value as produced by `json.loads`: null, booleans, numbers
(integers suffice for the claims), strings, lists and dicts.  A dict is
kept as the key/value list in source order. -/
inductive JVal : Type where
  | jnull : JVal
  | jbool (b : Bool) : JVal
  | jint (n : Int) : JVal
  | jstr (s : String) : JVal
  | jarr (elems : List JVal) : JVal
  | jobj (fields : List (String × JVal)) : JVal

/-- Python truthiness of a value: `None`, `False`, `0`, `""`, `[]` and
an empty dict are falsy, everything else is truthy. -/
def truthy : JVal → Bool
  | JVal.jnull => false
  | JVal.jbool b => b
  | JVal.jint n => n != 0
  | JVal.jstr s => s != ""
  | JVal.jarr [] => false
  | JVal.jarr (_ :: _) => true
  | JVal.jobj [] => false
  | JVal.jobj (_ :: _) => true

/-- Truthiness of `dict.get`'s result: an absent key gives `None`,
which is falsy. -/
def truthyOpt : Option JVal → Bool
  | none => false
  | some v => truthy v

/-- `dict.get(key)` on the field list: the LAST binding of the key wins,
exactly as in a Python dict built by inserting the pairs in order
(`json.loads` keeps the last duplicate). -/
def dictGet : List (String × JVal) → String → Option JVal
  | [], _ => none
  | (k, v) :: rest, key =>
    match dictGet rest key with
    | some r => some r
    | none => if k = key then some v else none

/-- `dict.get(key, default)`. -/
def getD (fields : List (String × JVal)) (key : String) (dflt : JVal) : JVal :=
  (dictGet fields key).getD dflt

mutual

/-- Python `repr` of a json-loaded value, used by `str` on containers.
Mirrors CPython output for the values `json.loads` can produce. -/
def pyRepr : JVal → String
  | JVal.jnull => "None"
  | JVal.jbool true => "True"
  | JVal.jbool false => "False"
  | JVal.jint n => toString n
  | JVal.jstr s => "'" ++ s ++ "'"
  | JVal.jarr elems => "[" ++ pyReprList elems ++ "]"
  | JVal.jobj fields => "\x7b" ++ pyReprFields fields ++ "\x7d"

/-- Comma-separated reprs of list elements. -/
def pyReprList : List JVal → String
  | [] => ""
  | [v] => pyRepr v
  | v :: rest => pyRepr v ++ ", " ++ pyReprList rest

/-- Comma-separated reprs of dict entries. -/
def pyReprFields : List (String × JVal) → String
  | [] => ""
  | [(k, v)] => "'" ++ k ++ "': " ++ pyRepr v
  | (k, v) :: rest => "'" ++ k ++ "': " ++ pyRepr v ++ ", " ++ pyReprFields rest

end

/-- Python `str()` of a value, as used by f-string interpolation: a
string renders verbatim, everything else by its repr (matching CPython,
where `str` and `repr` agree on these values). -/
def pyStr : JVal → String
  | JVal.jstr s => s
  | v => pyRepr v

/-- Python `s.replace('\n', ' ')` as applied by every truncating
handler: with a one-character pattern and a one-character replacement,
`str.replace` is exactly a character-by-character map. -/
def replaceNewlines (s : String) : String :=
  String.mk (s.data.map fun c => if c = '\n' then ' ' else c)

/-- Require a `str` where the Python code applies `len`, slicing and
`.replace` to a field value; any non-string present value makes at
least one of those raise, which the caller's `except Exception`
catches.  The message text is modelled (only its existence matters). -/
def asPyString : JVal → Except String String
  | JVal.jstr s => Except.ok s
  | _ => Except.error "field value is not a string"

/-- Python `value[:8]`, as applied to `session_id`: slicing works on
strings and lists and raises `TypeError` on anything else. -/
def pySlice8 : JVal → Except String JVal
  | JVal.jstr s => Except.ok (JVal.jstr (s.take 8))
  | JVal.jarr elems => Except.ok (JVal.jarr (elems.take 8))
  | _ => Except.error "object is not subscriptable"

/-- `data.get(...)` requires `data` to be a dict: models the
`AttributeError` raised when `json.loads` returned a non-object. -/
def getAttrFields : JVal → Except String (List (String × JVal))
  | JVal.jobj fields => Except.ok fields
  | _ => Except.error "object has no attribute get"

/-- `HookParser._handle_tool_use_started`. -/
def handle_tool_use_started (data : List (String × JVal)) : Except String String :=
  let tool_name := getD data "tool_name" (JVal.jstr "unknown")
  let request_id := getD data "request_id" (JVal.jstr "unknown")
  Except.ok ("Tool '" ++ pyStr tool_name ++ "' started (request_id: " ++ pyStr request_id ++ ")")

/-- `HookParser._handle_tool_use_completed`: `result` defaults to the
empty dict; `result.get('is_error')` raises when `result` is not a
dict. -/
def handle_tool_use_completed (data : List (String × JVal)) : Except String String := do
  let tool_name := getD data "tool_name" (JVal.jstr "unknown")
  let request_id := getD data "request_id" (JVal.jstr "unknown")
  let result := getD data "result" (JVal.jobj [])
  let fields ← getAttrFields result
  if truthyOpt (dictGet fields "is_error") then
    let error_msg := getD fields "error" (JVal.jstr "Unknown error")
    Except.ok ("Tool '" ++ pyStr tool_name ++ "' failed with error: " ++ pyStr error_msg
      ++ " (request_id: " ++ pyStr request_id ++ ")")
  else
    Except.ok ("Tool '" ++ pyStr tool_name ++ "' completed successfully (request_id: "
      ++ pyStr request_id ++ ")")

/-- `HookParser._handle_tool_use_blocked`. -/
def handle_tool_use_blocked (data : List (String × JVal)) : Except String String :=
  let tool_name := getD data "tool_name" (JVal.jstr "unknown")
  let request_id := getD data "request_id" (JVal.jstr "unknown")
  let reason := getD data "reason" (JVal.jstr "No reason provided")
  Except.ok ("Tool '" ++ pyStr tool_name ++ "' was blocked: " ++ pyStr reason
    ++ " (request_id: " ++ pyStr request_id ++ ")")

/-- `HookParser._handle_prompt_intercepted`: `prompt` defaults to `""`,
is truncated to 100 characters with `...` appended when longer, then
newlines are replaced by spaces. -/
def handle_prompt_intercepted (data : List (String × JVal)) : Except String String := do
  let prompt ← asPyString (getD data "prompt" (JVal.jstr ""))
  let prompt_preview := if prompt.length > 100 then prompt.take 100 ++ "..." else prompt
  let prompt_preview := replaceNewlines prompt_preview
  Except.ok ("User prompt intercepted: \"" ++ prompt_preview ++ "\"")

/-- `HookParser._handle_prompt_submitted`. -/
def handle_prompt_submitted (data : List (String × JVal)) : Except String String := do
  let prompt ← asPyString (getD data "prompt" (JVal.jstr ""))
  let prompt_preview := if prompt.length > 100 then prompt.take 100 ++ "..." else prompt
  let prompt_preview := replaceNewlines prompt_preview
  Except.ok ("User prompt submitted: \"" ++ prompt_preview ++ "\"")

/-- `HookParser._handle_response_started`. -/
def handle_response_started (_data : List (String × JVal)) : Except String String :=
  Except.ok "Claude started generating a response"

/-- `HookParser._handle_response_chunk`: like the prompt handlers but
with a 50-character limit on `chunk`. -/
def handle_response_chunk (data : List (String × JVal)) : Except String String := do
  let chunk ← asPyString (getD data "chunk" (JVal.jstr ""))
  let chunk_preview := if chunk.length > 50 then chunk.take 50 ++ "..." else chunk
  let chunk_preview := replaceNewlines chunk_preview
  Except.ok ("Response chunk received: \"" ++ chunk_preview ++ "\"")

/-- `HookParser._handle_response_completed`. -/
def handle_response_completed (data : List (String × JVal)) : Except String String := do
  let response ← asPyString (getD data "response" (JVal.jstr ""))
  let response_preview := if response.length > 100 then response.take 100 ++ "..." else response
  let response_preview := replaceNewlines response_preview
  Except.ok ("Claude completed response: \"" ++ response_preview ++ "\"")

/-- `HookParser._handle_error`. -/
def handle_error (data : List (String × JVal)) : Except String String :=
  let error := getD data "error" (JVal.jstr "Unknown error")
  let error_type := getD data "error_type" (JVal.jstr "unknown")
  Except.ok ("Error occurred (" ++ pyStr error_type ++ "): " ++ pyStr error)

/-- `HookParser._handle_extended_event`.  Each branch reads exactly the
fields the Python branch reads; `session_id[:8]` goes through
`pySlice8`.  In the `PostToolUse` branch the Python code computes a
preview of `tool_response` (via `str()`, which never raises) and then
discards it; the discarded computation is kept as a `let _`. -/
def handle_extended_event (event_type : String) (data : List (String × JVal)) :
    Except String String := do
  let session_id := getD data "session_id" (JVal.jstr "unknown")
  let cwd := getD data "cwd" (JVal.jstr "unknown")
  if event_type = "Stop" then do
    let sid8 ← pySlice8 session_id
    Except.ok ("Session stopped (id: " ++ pyStr sid8 ++ "...) in " ++ pyStr cwd)
  else if event_type = "Start" ∨ event_type = "SessionStart" then do
    let source := getD data "source" (JVal.jstr "")
    let source_info := if truthy source then " via " ++ pyStr source else ""
    let sid8 ← pySlice8 session_id
    Except.ok ("Session started (id: " ++ pyStr sid8 ++ "...)" ++ source_info
      ++ " in " ++ pyStr cwd)
  else if event_type = "UserPromptSubmit" then do
    let prompt ← asPyString (getD data "prompt" (JVal.jstr ""))
    let prompt_preview := if prompt.length > 100 then prompt.take 100 ++ "..." else prompt
    let prompt_preview := replaceNewlines prompt_preview
    Except.ok ("User submitted prompt: \"" ++ prompt_preview ++ "\"")
  else if event_type = "PreToolUse" then
    let tool_name := getD data "tool_name" (JVal.jstr "unknown")
    Except.ok ("About to use tool '" ++ pyStr tool_name ++ "'")
  else if event_type = "PostToolUse" then
    let tool_name := getD data "tool_name" (JVal.jstr "unknown")
    let tr := pyStr (getD data "tool_response" (JVal.jstr ""))
    let response_preview := if tr.length > 50 then tr.take 50 ++ "..." else tr
    let _ := replaceNewlines response_preview
    Except.ok ("Completed tool '" ++ pyStr tool_name ++ "' execution")
  else if event_type = "Notification" then
    let message := getD data "message" (JVal.jstr "No message")
    Except.ok ("Notification: " ++ pyStr message)
  else if event_type = "SubagentStop" then do
    let sid8 ← pySlice8 session_id
    Except.ok ("Subagent stopped (session: " ++ pyStr sid8 ++ "...)")
  else if event_type = "SubagentStart" then do
    let sid8 ← pySlice8 session_id
    Except.ok ("Subagent started (session: " ++ pyStr sid8 ++ "...)")
  else do
    let sid8 ← pySlice8 session_id
    Except.ok ("Session event '" ++ event_type ++ "' (id: " ++ pyStr sid8 ++ "...)")

/-- The dispatch table `self.hook_handlers` built in `HookParser.__init__`:
a key lookup returning the handler if present. -/
def hook_handlers : String → Option (List (String × JVal) → Except String String)
  | "tool_use_started" => some handle_tool_use_started
  | "tool_use_completed" => some handle_tool_use_completed
  | "tool_use_blocked" => some handle_tool_use_blocked
  | "prompt_intercepted" => some handle_prompt_intercepted
  | "prompt_submitted" => some handle_prompt_submitted
  | "response_started" => some handle_response_started
  | "response_chunk" => some handle_response_chunk
  | "response_completed" => some handle_response_completed
  | "error" => some handle_error
  | _ => none

/-- The fixed literal list checked by `HookParser.parse` before the
dispatch-table lookup. -/
def extendedEvents : List String :=
  ["Stop", "Start", "SessionStart", "UserPromptSubmit", "PreToolUse", "PostToolUse",
   "Notification", "SubagentStop", "SubagentStart"]

/-- `hook_type = data.get('hook') or data.get('hook_event_name')`:
Python `or` yields the first operand when it is truthy (an absent key
gives the falsy `None`), else the second. -/
def selectHook (data : List (String × JVal)) : Option JVal :=
  if truthyOpt (dictGet data "hook") then dictGet data "hook"
  else dictGet data "hook_event_name"

/-- The dispatch of `HookParser.parse` on an already-parsed record
(lines 27–42).  A falsy or absent discriminator gives the fixed invalid
message; a string discriminator is checked against the extended-event
list, then the handler table, then falls to the unknown message; a
non-string discriminator cannot equal a string of the extended list,
and in the `in self.hook_handlers` test a list or dict is unhashable
(Python raises `TypeError`, modelled as `.error`), while other
hashables fall to the unknown message. -/
def describeData (data : List (String × JVal)) : Except String String :=
  let hook_type := selectHook data
  if truthyOpt hook_type then
    match hook_type with
    | some (JVal.jstr s) =>
      if extendedEvents.contains s then handle_extended_event s data
      else
        match hook_handlers s with
        | some handler => handler data
        | none => Except.ok ("Unknown hook type: " ++ s)
    | some (JVal.jarr _) => Except.error "unhashable type"
    | some (JVal.jobj _) => Except.error "unhashable type"
    | some v => Except.ok ("Unknown hook type: " ++ pyStr v)
    | none => Except.ok "Invalid hook input: missing 'hook' or 'hook_event_name' field"
  else
    Except.ok "Invalid hook input: missing 'hook' or 'hook_event_name' field"

/-- Whitespace as skipped by the JSON grammar. -/
def isWsChar (c : Char) : Bool :=
  c = ' ' || c = '\n' || c = '\t' || c = '\r'

/-- Drop leading JSON whitespace. -/
def skipWs : List Char → List Char
  | [] => []
  | c :: rest => if isWsChar c then skipWs rest else c :: rest

/-- JSON string escape characters (the `\uXXXX` form is not needed by
any claim and is rejected, making the model of `json.loads` partial on
inputs no claim touches). -/
def escChar (c : Char) : Option Char :=
  if c = 'n' then some '\n'
  else if c = 't' then some '\t'
  else if c = 'r' then some '\r'
  else if c = '\"' then some '\"'
  else if c = '\\' then some '\\'
  else if c = '/' then some '/'
  else if c = 'b' then some (Char.ofNat 8)
  else if c = 'f' then some (Char.ofNat 12)
  else none

/-- Read the body of a JSON string after its opening quote; returns the
decoded characters and the remaining input. -/
def readStrChars : List Char → Except String (List Char × List Char)
  | [] => Except.error "Unterminated string"
  | '\"' :: rest => Except.ok ([], rest)
  | '\\' :: c :: rest =>
    match escChar c with
    | some e =>
      match readStrChars rest with
      | Except.ok (s, r) => Except.ok (e :: s, r)
      | Except.error msg => Except.error msg
    | none => Except.error "Invalid escape"
  | ['\\'] => Except.error "Unterminated string"
  | c :: rest =>
    match readStrChars rest with
    | Except.ok (s, r) => Except.ok (c :: s, r)
    | Except.error msg => Except.error msg

/-- Longest digit prefix and the rest. -/
def spanDigits : List Char → List Char × List Char
  | [] => ([], [])
  | c :: rest =>
    if c.isDigit then
      let (ds, r) := spanDigits rest
      (c :: ds, r)
    else ([], c :: rest)

/-- Decimal value of a digit list. -/
def digitsToNat (ds : List Char) : Nat :=
  ds.foldl (fun a c => a * 10 + (c.toNat - 48)) 0

/-- Does the input begin with the given literal characters? -/
def beginsWith : List Char → List Char → Option (List Char)
  | [], rest => some rest
  | _, [] => none
  | l :: ls, c :: rest => if l = c then beginsWith ls rest else none

mutual

/-- One JSON value.  Fuel bounds the recursion (the top level passes
the input length plus one, which is always sufficient since every
nested value consumes at least one character). -/
def readVal : Nat → List Char → Except String (JVal × List Char)
  | 0, _ => Except.error "Expecting value"
  | fuel + 1, cs =>
    match skipWs cs with
    | [] => Except.error "Expecting value"
    | c :: rest =>
      if c = '\"' then
        match readStrChars rest with
        | Except.ok (s, r) => Except.ok (JVal.jstr (String.mk s), r)
        | Except.error msg => Except.error msg
      else if c = Char.ofNat 123 then readObjFields fuel (skipWs rest)
      else if c = '[' then readArrElems fuel (skipWs rest)
      else if c = 'n' then
        match beginsWith ['u', 'l', 'l'] rest with
        | some r => Except.ok (JVal.jnull, r)
        | none => Except.error "Expecting value"
      else if c = 't' then
        match beginsWith ['r', 'u', 'e'] rest with
        | some r => Except.ok (JVal.jbool true, r)
        | none => Except.error "Expecting value"
      else if c = 'f' then
        match beginsWith ['a', 'l', 's', 'e'] rest with
        | some r => Except.ok (JVal.jbool false, r)
        | none => Except.error "Expecting value"
      else if c = '-' then
        match spanDigits rest with
        | ([], _) => Except.error "Expecting value"
        | (ds, r) => Except.ok (JVal.jint (-(digitsToNat ds : Int)), r)
      else if c.isDigit then
        match spanDigits (c :: rest) with
        | (ds, r) => Except.ok (JVal.jint (digitsToNat ds : Int), r)
      else Except.error "Expecting value"

/-- The elements of a JSON array, positioned after `[` (whitespace
already skipped). -/
def readArrElems : Nat → List Char → Except String (JVal × List Char)
  | 0, _ => Except.error "Expecting value"
  | fuel + 1, cs =>
    match cs with
    | ']' :: rest => Except.ok (JVal.jarr [], rest)
    | _ =>
      match readVal fuel cs with
      | Except.error msg => Except.error msg
      | Except.ok (v, r) =>
        match skipWs r with
        | ']' :: rest => Except.ok (JVal.jarr [v], rest)
        | ',' :: rest =>
          match readArrElems fuel (skipWs rest) with
          | Except.ok (JVal.jarr vs, r2) => Except.ok (JVal.jarr (v :: vs), r2)
          | Except.ok _ => Except.error "Expecting value"
          | Except.error msg => Except.error msg
        | _ => Except.error "Expecting delimiter"

/-- The members of a JSON object, positioned after the opening brace
(whitespace already skipped). -/
def readObjFields : Nat → List Char → Except String (JVal × List Char)
  | 0, _ => Except.error "Expecting value"
  | fuel + 1, cs =>
    match cs with
    | c :: rest =>
      if c = Char.ofNat 125 then Except.ok (JVal.jobj [], rest)
      else if c = '\"' then
        match readStrChars rest with
        | Except.error msg => Except.error msg
        | Except.ok (k, r) =>
          match skipWs r with
          | ':' :: r2 =>
            match readVal fuel r2 with
            | Except.error msg => Except.error msg
            | Except.ok (v, r3) =>
              match skipWs r3 with
              | c2 :: rest2 =>
                if c2 = Char.ofNat 125 then
                  Except.ok (JVal.jobj [(String.mk k, v)], rest2)
                else if c2 = ',' then
                  match readObjFields fuel (skipWs rest2) with
                  | Except.ok (JVal.jobj fs, r4) =>
                    Except.ok (JVal.jobj ((String.mk k, v) :: fs), r4)
                  | Except.ok _ => Except.error "Expecting property name"
                  | Except.error msg => Except.error msg
                else Except.error "Expecting delimiter"
              | [] => Except.error "Expecting delimiter"
          | _ => Except.error "Expecting colon delimiter"
      else Except.error "Expecting property name"
    | [] => Except.error "Expecting property name"

end

/-- Modelled from the Python standard library: `json.loads` (not code of
this repository).  Error message texts are modelled; the code under
verification only ever embeds them after a fixed prefix. -/
def jsonParse (input : String) : Except String JVal :=
  match readVal (input.length + 1) input.data with
  | Except.error msg => Except.error msg
  | Except.ok (v, rest) =>
    match skipWs rest with
    | [] => Except.ok v
    | _ => Except.error "Extra data"

/-- The body of `HookParser.parse`'s `try` block after `json.loads`
succeeded: obtaining `.get` (raises on a non-dict) and dispatching. -/
def dispatchAndRender (v : JVal) : Except String (List (String × JVal) × String) := do
  let data ← getAttrFields v
  let description ← describeData data
  Except.ok (data, description)

/-- `HookParser.parse` up to the timestamp prefix: the record and the
description body.  The `except json.JSONDecodeError` arm yields the
`Invalid JSON input` body, the `except Exception` arm the
`Error parsing hook input` body, both with an empty record. -/
def parseCore (input : String) : List (String × JVal) × String :=
  match jsonParse input with
  | Except.error e => ([], "Invalid JSON input: " ++ e)
  | Except.ok v =>
    match dispatchAndRender v with
    | Except.error e => ([], "Error parsing hook input: " ++ e)
    | Except.ok (data, description) => (data, description)

/-- `HookParser._format_output`: the wall-clock timestamp is passed in
(the Python code formats `datetime.now()`). -/
def format_output (timestamp description : String) : String :=
  "[" ++ timestamp ++ "] " ++ description

/-- `HookParser.parse` with an explicit timestamp. -/
def parse (timestamp input : String) : List (String × JVal) × String :=
  let (data, description) := parseCore input
  (data, format_output timestamp description)

/-- Is the value a JSON object (a Python dict)? -/
def isObj : JVal → Bool
  | JVal.jobj _ => true
  | _ => false

/-- Two descriptions are equal when their character lists are. -/
theorem okStr_congr {x y : String} (h : x.data = y.data) :
    (Except.ok x : Except String String) = Except.ok y :=
  congrArg Except.ok (String.ext h)

/-- C1, counterexample: a record whose fallback discriminator holds the
string `SessionEnd` — neither an extended literal nor a primary kind —
renders the body `Unknown hook type: SessionEnd`, not the generic
`Session event 'SessionEnd' (id: unknown...)` sentence the claim
states (that branch of `_handle_extended_event` is unreachable from
`parse`, which only calls it for the nine fixed literals). -/
theorem c1_fallback_generic_counterexample :
    (parseCore "\x7b\"hook_event_name\": \"SessionEnd\"\x7d").2 =
      "Unknown hook type: SessionEnd" ∧
    (parseCore "\x7b\"hook_event_name\": \"SessionEnd\"\x7d").2 ≠
      "Session event 'SessionEnd' (id: unknown...)" := by
  constructor
  · rfl
  · decide

/-- C1, amended: for every record whose `hook` field is absent or falsy
and whose `hook_event_name` field holds a non-empty string that is
neither one of the nine extended literals nor one of the nine primary
kinds, the rendered description body is `Unknown hook type: <kind>`
(the generic `Session event` sentence is dead code). -/
theorem c1_unknown_fallback_kind (data : List (String × JVal)) (s : String)
    (hhook : truthyOpt (dictGet data "hook") = false)
    (hfb : dictGet data "hook_event_name" = some (JVal.jstr s))
    (hne : s ≠ "")
    (hext : extendedEvents.contains s = false)
    (hhand : hook_handlers s = none) :
    describeData data = Except.ok ("Unknown hook type: " ++ s) := by
  have hsel : selectHook data = some (JVal.jstr s) := by
    simp [selectHook, hhook, hfb]
  have hnotmem : s ∉ extendedEvents := by
    simpa [List.contains_iff_exists_mem_beq] using hext
  simp [describeData, hsel, truthyOpt, truthy, hne, hnotmem, hhand]

/-- C1, witness for the amended theorem at the concrete record
`\x7b"hook_event_name": "SessionEnd"\x7d`. -/
theorem c1_unknown_fallback_kind_witness :
    truthyOpt (dictGet [("hook_event_name", JVal.jstr "SessionEnd")] "hook") = false ∧
    describeData [("hook_event_name", JVal.jstr "SessionEnd")] =
      Except.ok ("Unknown hook type: " ++ "SessionEnd") :=
  ⟨rfl, c1_unknown_fallback_kind _ "SessionEnd" rfl rfl (by decide) rfl rfl⟩

/-- C2, counterexample: the claim quantifies over every extended-kind
record, but four extended kinds do not render the session id at all: a
`Notification` record with a session id renders `Notification: No
message`, which contains no character of the id and no `...` (it has
no `.` at all). -/
theorem c2_notification_counterexample :
    describeData [("hook_event_name", JVal.jstr "Notification"),
        ("session_id", JVal.jstr "173ea15b-0fa8")] =
      Except.ok "Notification: No message" ∧
    "Notification: No message".data.contains '.' = false := by
  constructor
  · rfl
  · decide

/-- C2, amended: for the five extended kinds whose description renders
the session id (`Stop`, `Start`, `SessionStart`, `SubagentStop`,
`SubagentStart`), and for every string value of `session_id` — shorter
or longer than 8 characters — the description body contains exactly the
first 8 characters of the id (`String.take 8`) followed by the literal
`...`; and an absent `session_id` renders exactly as the default string
`unknown` would. -/
theorem c2_session_id_truncation (sid kind : String)
    (h : kind ∈ ["Stop", "Start", "SessionStart", "SubagentStop", "SubagentStart"]) :
    (∃ p q, describeData [("hook_event_name", JVal.jstr kind), ("session_id", JVal.jstr sid)] =
        Except.ok (p ++ (sid.take 8 ++ "...") ++ q)) ∧
    describeData [("hook_event_name", JVal.jstr kind)] =
      describeData [("hook_event_name", JVal.jstr kind),
        ("session_id", JVal.jstr "unknown")] := by
  fin_cases h
  · exact ⟨⟨"Session stopped (id: ", ") in unknown",
      okStr_congr (by simp only [String.data_append, List.append_assoc]; rfl)⟩, rfl⟩
  · exact ⟨⟨"Session started (id: ", ") in unknown",
      okStr_congr (by simp only [String.data_append, List.append_assoc]; rfl)⟩, rfl⟩
  · exact ⟨⟨"Session started (id: ", ") in unknown",
      okStr_congr (by simp only [String.data_append, List.append_assoc]; rfl)⟩, rfl⟩
  · exact ⟨⟨"Subagent stopped (session: ", ")",
      okStr_congr (by simp only [String.data_append, List.append_assoc]; rfl)⟩, rfl⟩
  · exact ⟨⟨"Subagent started (session: ", ")",
      okStr_congr (by simp only [String.data_append, List.append_assoc]; rfl)⟩, rfl⟩

/-- C2, witness at the concrete id `abc` (shorter than 8 characters)
and the kind `Stop`. -/
theorem c2_session_id_truncation_witness :
    "Stop" ∈ ["Stop", "Start", "SessionStart", "SubagentStop", "SubagentStart"] ∧
    ((∃ p q, describeData [("hook_event_name", JVal.jstr "Stop"),
          ("session_id", JVal.jstr "abc")] =
        Except.ok (p ++ ("abc".take 8 ++ "...") ++ q)) ∧
      describeData [("hook_event_name", JVal.jstr "Stop")] =
        describeData [("hook_event_name", JVal.jstr "Stop"),
          ("session_id", JVal.jstr "unknown")]) :=
  ⟨by decide, c2_session_id_truncation "abc" "Stop" (by decide)⟩

/-- C3, counterexample: in the record with `hook` equal to the empty
string and `hook_event_name` equal to `Stop`, the kind used for
dispatch is `Stop` (the fallback field's value), not the value of
`hook` — the rendered body is the `Stop` sentence and not the
missing-discriminator message the empty kind would give. -/
theorem c3_hook_precedence_counterexample :
    selectHook [("hook", JVal.jstr ""), ("hook_event_name", JVal.jstr "Stop")] =
      some (JVal.jstr "Stop") ∧
    (parseCore "\x7b\"hook\": \"\", \"hook_event_name\": \"Stop\"\x7d").2 =
      "Session stopped (id: unknown...) in unknown" ∧
    (parseCore "\x7b\"hook\": \"\", \"hook_event_name\": \"Stop\"\x7d").2 ≠
      "Invalid hook input: missing 'hook' or 'hook_event_name' field" := by
  refine ⟨rfl, rfl, ?_⟩
  decide

/-- C3, amended: `hook` wins over `hook_event_name` exactly when its
value is truthy (for strings: non-empty); a present but falsy `hook`
falls through to `hook_event_name`. -/
theorem c3_hook_precedence (data : List (String × JVal)) (v : JVal)
    (hget : dictGet data "hook" = some v) (ht : truthy v = true) :
    selectHook data = some v := by
  simp [selectHook, truthyOpt, hget, ht]

/-- C3, witness: with both fields present and `hook` non-empty, the
discriminator is `hook`'s value. -/
theorem c3_hook_precedence_witness :
    dictGet [("hook", JVal.jstr "error"), ("hook_event_name", JVal.jstr "Stop")] "hook" =
      some (JVal.jstr "error") ∧
    truthy (JVal.jstr "error") = true ∧
    selectHook [("hook", JVal.jstr "error"), ("hook_event_name", JVal.jstr "Stop")] =
      some (JVal.jstr "error") :=
  ⟨rfl, rfl, c3_hook_precedence _ _ rfl rfl⟩

/-- C4, counterexample: the record `\x7b"hook": "Stop"\x7d`, whose
extended literal arrives through the `hook` field and not through the
fallback field, is nevertheless rendered by the extended-kind rules
(the `Stop` sentence), contradicting the claim that those rules are
not applied. -/
theorem c4_extended_via_hook_counterexample :
    (parseCore "\x7b\"hook\": \"Stop\"\x7d").2 =
      "Session stopped (id: unknown...) in unknown" ∧
    (parseCore "\x7b\"hook\": \"Stop\"\x7d").2 ≠ "Unknown hook type: Stop" := by
  constructor
  · rfl
  · decide

/-- C4, amended: an extended kind is recognized through either
discriminator field: whenever the selected discriminator is a string of
the extended literal set — no matter which field supplied it — the
extended-kind rendering rules are applied. -/
theorem c4_extended_either_field (data : List (String × JVal)) (s : String)
    (hsel : selectHook data = some (JVal.jstr s))
    (hext : extendedEvents.contains s = true) :
    describeData data = handle_extended_event s data := by
  have hmem : s ∈ extendedEvents := by simpa using hext
  have hne : (s != "") = true := by
    fin_cases hmem <;> decide
  simp [describeData, hsel, truthyOpt, truthy, hne, hmem]

/-- C4, witness for the amended theorem at `\x7b"hook": "Stop"\x7d`. -/
theorem c4_extended_either_field_witness :
    selectHook [("hook", JVal.jstr "Stop")] = some (JVal.jstr "Stop") ∧
    extendedEvents.contains "Stop" = true ∧
    describeData [("hook", JVal.jstr "Stop")] =
      handle_extended_event "Stop" [("hook", JVal.jstr "Stop")] :=
  ⟨rfl, rfl, c4_extended_either_field _ "Stop" rfl rfl⟩

/-- The `prompt_intercepted` body as a function of the `prompt` string:
truncate at 100, then replace newlines. -/
theorem body_prompt_intercepted (s : String) :
    describeData [("hook", JVal.jstr "prompt_intercepted"), ("prompt", JVal.jstr s)] =
      Except.ok ("User prompt intercepted: \""
        ++ replaceNewlines (if s.length > 100 then s.take 100 ++ "..." else s) ++ "\"") := rfl

/-- The `prompt_submitted` body as a function of the `prompt` string. -/
theorem body_prompt_submitted (s : String) :
    describeData [("hook", JVal.jstr "prompt_submitted"), ("prompt", JVal.jstr s)] =
      Except.ok ("User prompt submitted: \""
        ++ replaceNewlines (if s.length > 100 then s.take 100 ++ "..." else s) ++ "\"") := rfl

/-- The `UserPromptSubmit` body as a function of the `prompt` string. -/
theorem body_user_prompt_submit (s : String) :
    describeData [("hook_event_name", JVal.jstr "UserPromptSubmit"), ("prompt", JVal.jstr s)] =
      Except.ok ("User submitted prompt: \""
        ++ replaceNewlines (if s.length > 100 then s.take 100 ++ "..." else s) ++ "\"") := rfl

/-- The `response_chunk` body as a function of the `chunk` string:
truncate at 50, then replace newlines. -/
theorem body_response_chunk (s : String) :
    describeData [("hook", JVal.jstr "response_chunk"), ("chunk", JVal.jstr s)] =
      Except.ok ("Response chunk received: \""
        ++ replaceNewlines (if s.length > 50 then s.take 50 ++ "..." else s) ++ "\"") := rfl

/-- The `response_completed` body as a function of the `response` string. -/
theorem body_response_completed (s : String) :
    describeData [("hook", JVal.jstr "response_completed"), ("response", JVal.jstr s)] =
      Except.ok ("Claude completed response: \""
        ++ replaceNewlines (if s.length > 100 then s.take 100 ++ "..." else s) ++ "\"") := rfl

/-- C5: the truncation rule, for every string value of a truncated
field.  `prompt` (in `prompt_intercepted`, `prompt_submitted` and
`UserPromptSubmit`) and `response` use limit 100, `chunk` limit 50: a
string within the limit is embedded with every newline replaced by a
space; a longer string is embedded as exactly its first `limit`
characters followed by `...`, with the newline replacement applied
after truncation, so only newlines inside the kept prefix are
replaced. -/
theorem c5_truncation_rule (s : String) :
    (s.length ≤ 100 →
      describeData [("hook", JVal.jstr "prompt_intercepted"), ("prompt", JVal.jstr s)] =
        Except.ok ("User prompt intercepted: \"" ++ replaceNewlines s ++ "\"")) ∧
    (s.length > 100 →
      describeData [("hook", JVal.jstr "prompt_intercepted"), ("prompt", JVal.jstr s)] =
        Except.ok ("User prompt intercepted: \""
          ++ replaceNewlines (s.take 100 ++ "...") ++ "\"")) ∧
    (s.length ≤ 100 →
      describeData [("hook", JVal.jstr "prompt_submitted"), ("prompt", JVal.jstr s)] =
        Except.ok ("User prompt submitted: \"" ++ replaceNewlines s ++ "\"")) ∧
    (s.length > 100 →
      describeData [("hook", JVal.jstr "prompt_submitted"), ("prompt", JVal.jstr s)] =
        Except.ok ("User prompt submitted: \""
          ++ replaceNewlines (s.take 100 ++ "...") ++ "\"")) ∧
    (s.length ≤ 100 →
      describeData [("hook_event_name", JVal.jstr "UserPromptSubmit"),
          ("prompt", JVal.jstr s)] =
        Except.ok ("User submitted prompt: \"" ++ replaceNewlines s ++ "\"")) ∧
    (s.length > 100 →
      describeData [("hook_event_name", JVal.jstr "UserPromptSubmit"),
          ("prompt", JVal.jstr s)] =
        Except.ok ("User submitted prompt: \""
          ++ replaceNewlines (s.take 100 ++ "...") ++ "\"")) ∧
    (s.length ≤ 50 →
      describeData [("hook", JVal.jstr "response_chunk"), ("chunk", JVal.jstr s)] =
        Except.ok ("Response chunk received: \"" ++ replaceNewlines s ++ "\"")) ∧
    (s.length > 50 →
      describeData [("hook", JVal.jstr "response_chunk"), ("chunk", JVal.jstr s)] =
        Except.ok ("Response chunk received: \""
          ++ replaceNewlines (s.take 50 ++ "...") ++ "\"")) ∧
    (s.length ≤ 100 →
      describeData [("hook", JVal.jstr "response_completed"), ("response", JVal.jstr s)] =
        Except.ok ("Claude completed response: \"" ++ replaceNewlines s ++ "\"")) ∧
    (s.length > 100 →
      describeData [("hook", JVal.jstr "response_completed"), ("response", JVal.jstr s)] =
        Except.ok ("Claude completed response: \""
          ++ replaceNewlines (s.take 100 ++ "...") ++ "\"")) := by
  refine ⟨fun h => ?_, fun h => ?_, fun h => ?_, fun h => ?_, fun h => ?_,
    fun h => ?_, fun h => ?_, fun h => ?_, fun h => ?_, fun h => ?_⟩
  · rw [body_prompt_intercepted, if_neg (by omega)]
  · rw [body_prompt_intercepted, if_pos h]
  · rw [body_prompt_submitted, if_neg (by omega)]
  · rw [body_prompt_submitted, if_pos h]
  · rw [body_user_prompt_submit, if_neg (by omega)]
  · rw [body_user_prompt_submit, if_pos h]
  · rw [body_response_chunk, if_neg (by omega)]
  · rw [body_response_chunk, if_pos h]
  · rw [body_response_completed, if_neg (by omega)]
  · rw [body_response_completed, if_pos h]

/-- C5, witness: a short multi-line prompt is embedded verbatim with
its newline turned into a space, and a 102-character prompt (with two
newlines inside the first 100 characters) is cut to its first 100
characters before the newline replacement. -/
theorem c5_truncation_rule_witness :
    ("a\nb".length ≤ 100 ∧
      describeData [("hook", JVal.jstr "prompt_submitted"), ("prompt", JVal.jstr "a\nb")] =
        Except.ok ("User prompt submitted: \"" ++ replaceNewlines "a\nb" ++ "\"")) ∧
    (("0123456789012345678901234567890123456789012345678\n0123456789012345678901234567890123456789012345678\nXY").length > 100 ∧
      describeData [("hook", JVal.jstr "prompt_submitted"),
          ("prompt", JVal.jstr "0123456789012345678901234567890123456789012345678\n0123456789012345678901234567890123456789012345678\nXY")] =
        Except.ok ("User prompt submitted: \""
          ++ replaceNewlines (("0123456789012345678901234567890123456789012345678\n0123456789012345678901234567890123456789012345678\nXY").take 100 ++ "...") ++ "\"")) :=
  ⟨⟨by decide, (c5_truncation_rule "a\nb").2.2.1 (by decide)⟩,
   ⟨by decide, (c5_truncation_rule
      "0123456789012345678901234567890123456789012345678\n0123456789012345678901234567890123456789012345678\nXY").2.2.2.1 (by decide)⟩⟩

/-- C6: for each of the 9 primary kinds and each of the 9 extended
kinds, the describer applied to a minimal record holding only the
discriminator succeeds with the documented defaults in place
(`tool_name`, `request_id`, `session_id`, `cwd` as `unknown`, `reason`
as `No reason provided`, `error` as `Unknown error`, `error_type` as
`unknown`, `message` as `No message`, text fields as the empty
string), never taking an error path. -/
theorem c6_minimal_records :
    describeData [("hook", JVal.jstr "tool_use_started")] =
      Except.ok "Tool 'unknown' started (request_id: unknown)" ∧
    describeData [("hook", JVal.jstr "tool_use_completed")] =
      Except.ok "Tool 'unknown' completed successfully (request_id: unknown)" ∧
    describeData [("hook", JVal.jstr "tool_use_blocked")] =
      Except.ok "Tool 'unknown' was blocked: No reason provided (request_id: unknown)" ∧
    describeData [("hook", JVal.jstr "prompt_intercepted")] =
      Except.ok "User prompt intercepted: \"\"" ∧
    describeData [("hook", JVal.jstr "prompt_submitted")] =
      Except.ok "User prompt submitted: \"\"" ∧
    describeData [("hook", JVal.jstr "response_started")] =
      Except.ok "Claude started generating a response" ∧
    describeData [("hook", JVal.jstr "response_chunk")] =
      Except.ok "Response chunk received: \"\"" ∧
    describeData [("hook", JVal.jstr "response_completed")] =
      Except.ok "Claude completed response: \"\"" ∧
    describeData [("hook", JVal.jstr "error")] =
      Except.ok "Error occurred (unknown): Unknown error" ∧
    describeData [("hook_event_name", JVal.jstr "Stop")] =
      Except.ok "Session stopped (id: unknown...) in unknown" ∧
    describeData [("hook_event_name", JVal.jstr "Start")] =
      Except.ok "Session started (id: unknown...) in unknown" ∧
    describeData [("hook_event_name", JVal.jstr "SessionStart")] =
      Except.ok "Session started (id: unknown...) in unknown" ∧
    describeData [("hook_event_name", JVal.jstr "UserPromptSubmit")] =
      Except.ok "User submitted prompt: \"\"" ∧
    describeData [("hook_event_name", JVal.jstr "PreToolUse")] =
      Except.ok "About to use tool 'unknown'" ∧
    describeData [("hook_event_name", JVal.jstr "PostToolUse")] =
      Except.ok "Completed tool 'unknown' execution" ∧
    describeData [("hook_event_name", JVal.jstr "Notification")] =
      Except.ok "Notification: No message" ∧
    describeData [("hook_event_name", JVal.jstr "SubagentStop")] =
      Except.ok "Subagent stopped (session: unknown...)" ∧
    describeData [("hook_event_name", JVal.jstr "SubagentStart")] =
      Except.ok "Subagent started (session: unknown...)" :=
  ⟨rfl, rfl, rfl, rfl, rfl, rfl, rfl, rfl, rfl, rfl, rfl, rfl, rfl, rfl, rfl, rfl, rfl, rfl⟩

/-- C7: `parse` never propagates a failure.  For every input string,
when the JSON reader fails the result is the empty record and the body
`Invalid JSON input: <parser error message>`, and when the JSON reader
succeeds but dispatch or rendering raises, the result is the empty
record and a body beginning `Error parsing hook input: ` (by
construction `parseCore` is a total function, so no other outcome
escapes to the caller). -/
theorem c7_error_recovery (s : String) :
    (∀ e, jsonParse s = Except.error e →
      parseCore s = ([], "Invalid JSON input: " ++ e)) ∧
    (∀ v e, jsonParse s = Except.ok v → dispatchAndRender v = Except.error e →
      parseCore s = ([], "Error parsing hook input: " ++ e)) := by
  constructor
  · intro e he
    simp [parseCore, he]
  · intro v e hv hd
    simp [parseCore, hv, hd]

/-- C7, witness: the malformed text `\x7binvalid json\x7d` takes the
JSON-failure arm, and the well-formed non-object `[1]` takes the
catch-all arm. -/
theorem c7_error_recovery_witness :
    (jsonParse "\x7binvalid json\x7d" = Except.error "Expecting property name" ∧
      parseCore "\x7binvalid json\x7d" =
        ([], "Invalid JSON input: " ++ "Expecting property name")) ∧
    (jsonParse "[1]" = Except.ok (JVal.jarr [JVal.jint 1]) ∧
      dispatchAndRender (JVal.jarr [JVal.jint 1]) =
        Except.error "object has no attribute get" ∧
      parseCore "[1]" = ([], "Error parsing hook input: " ++ "object has no attribute get")) :=
  ⟨⟨rfl, (c7_error_recovery "\x7binvalid json\x7d").1 "Expecting property name" rfl⟩,
   ⟨rfl, rfl, (c7_error_recovery "[1]").2 (JVal.jarr [JVal.jint 1])
      "object has no attribute get" rfl rfl⟩⟩

/-- C8: when the input is valid JSON whose top-level value is not an
object, `parse` returns the empty record together with a body that
begins `Error parsing hook input: `; the parsed non-object value is
discarded, not returned. -/
theorem c8_nonobject_top_level (s : String) (v : JVal)
    (hok : jsonParse s = Except.ok v) (hno : isObj v = false) :
    (parseCore s).1 = [] ∧
    ∃ e, (parseCore s).2 = "Error parsing hook input: " ++ e := by
  have hattr : getAttrFields v = Except.error "object has no attribute get" := by
    cases v <;> first
      | rfl
      | exact absurd hno (by simp [isObj])
  have hcore : parseCore s = ([], "Error parsing hook input: " ++ "object has no attribute get") := by
    simp [parseCore, hok, dispatchAndRender, hattr, Bind.bind, Except.bind]
  rw [hcore]
  exact ⟨rfl, "object has no attribute get", rfl⟩

/-- C8, witness at the JSON array text `[1, 2]`. -/
theorem c8_nonobject_top_level_witness :
    jsonParse "[1, 2]" = Except.ok (JVal.jarr [JVal.jint 1, JVal.jint 2]) ∧
    isObj (JVal.jarr [JVal.jint 1, JVal.jint 2]) = false ∧
    ((parseCore "[1, 2]").1 = [] ∧
      ∃ e, (parseCore "[1, 2]").2 = "Error parsing hook input: " ++ e) :=
  ⟨rfl, rfl, c8_nonobject_top_level "[1, 2]" (JVal.jarr [JVal.jint 1, JVal.jint 2]) rfl rfl⟩

/-- C9: the fallback strings for `reason` (`No reason provided`),
`message` (`No message`) and `result.error` (`Unknown error`) are used
exactly when the key is absent; a present empty-string value is
rendered as the empty string (shown for every present string value),
while an empty discriminator is the one field treated like an absent
one. -/
theorem c9_empty_string_vs_absent (s : String) :
    describeData [("hook", JVal.jstr "tool_use_blocked"), ("reason", JVal.jstr s)] =
      Except.ok ("Tool 'unknown' was blocked: " ++ s ++ " (request_id: unknown)") ∧
    describeData [("hook", JVal.jstr "tool_use_blocked")] =
      Except.ok "Tool 'unknown' was blocked: No reason provided (request_id: unknown)" ∧
    describeData [("hook_event_name", JVal.jstr "Notification"), ("message", JVal.jstr s)] =
      Except.ok ("Notification: " ++ s) ∧
    describeData [("hook_event_name", JVal.jstr "Notification")] =
      Except.ok "Notification: No message" ∧
    describeData [("hook", JVal.jstr "tool_use_completed"),
        ("result", JVal.jobj [("is_error", JVal.jbool true), ("error", JVal.jstr s)])] =
      Except.ok ("Tool 'unknown' failed with error: " ++ s ++ " (request_id: unknown)") ∧
    describeData [("hook", JVal.jstr "tool_use_completed"),
        ("result", JVal.jobj [("is_error", JVal.jbool true)])] =
      Except.ok "Tool 'unknown' failed with error: Unknown error (request_id: unknown)" ∧
    describeData [("hook", JVal.jstr "")] =
      Except.ok "Invalid hook input: missing 'hook' or 'hook_event_name' field" := by
  refine ⟨?_, rfl, ?_, rfl, ?_, rfl, rfl⟩
  · exact okStr_congr (by simp only [String.data_append, List.append_assoc]; rfl)
  · exact okStr_congr (by simp only [String.data_append, List.append_assoc]; rfl)
  · exact okStr_congr (by simp only [String.data_append, List.append_assoc]; rfl)

/-- C10: for the five prompt/response/chunk-rendering kinds, an absent
text field defaults to the empty string and the body embeds an empty
quoted string; in particular the raw record text
`\x7b"hook": "prompt_submitted"\x7d` renders the body
`User prompt submitted: ""`. -/
theorem c10_absent_text_defaults :
    describeData [("hook", JVal.jstr "prompt_intercepted")] =
      Except.ok "User prompt intercepted: \"\"" ∧
    describeData [("hook", JVal.jstr "prompt_submitted")] =
      Except.ok "User prompt submitted: \"\"" ∧
    describeData [("hook", JVal.jstr "response_chunk")] =
      Except.ok "Response chunk received: \"\"" ∧
    describeData [("hook", JVal.jstr "response_completed")] =
      Except.ok "Claude completed response: \"\"" ∧
    describeData [("hook_event_name", JVal.jstr "UserPromptSubmit")] =
      Except.ok "User submitted prompt: \"\"" ∧
    (parseCore "\x7b\"hook\": \"prompt_submitted\"\x7d").2 =
      "User prompt submitted: \"\"" :=
  ⟨rfl, rfl, rfl, rfl, rfl, rfl⟩

end HookMaster
